import Mathlib

/-!
The file gjs/jsapi-util-error.cpp: throwing script exceptions from native code

A shallow embedding of `gjs_throw_valist`, `gjs_throw`, `gjs_throw_custom`,
`gjs_throw_literal` and `gjs_throw_g_error`.

The engine context is an explicit record (pending-exception slot, request
nesting depth, stack of entered compartments).  The engine entry points whose
behaviour is decided by the script engine (string conversion, property lookup,
constructor invocation, GError conversion) are fields of `Engine`: arbitrary
functions from a context to a new context and a result.  Every call the C code
makes is also appended, in order, to `World.log`, which the engine functions
cannot reach; it is the record of what the call itself performed.
-/

namespace Gjs

/-- A script object, identified by its handle. -/
abbrev JSObject := Nat

/-- The engine values that occur in this file (`JS::Value`). -/
inductive JSValue where
  | undefined
  | null
  | string (s : String)
  | object (o : JSObject)
  deriving DecidableEq, Repr

/-- The native error record `GError`: domain quark, code and message. -/
structure GError where
  domain : Nat
  code : Int
  message : String
  deriving DecidableEq, Repr

/-- One variadic argument of a printf-style call. -/
inductive PrintfArg where
  | str (s : String)
  | int (i : Int)
  | chr (c : Char)
  deriving DecidableEq, Repr

/-- The state of a `JSContext` that this file reads or writes.
`pending = none` is "no exception pending"; `some v` is the `throwing` flag set
with exception value `v` (which may be `JSValue.null`). -/
structure JSContext where
  pending : Option JSValue
  requestDepth : Nat
  compartments : List JSObject
  importGlobal : JSObject
  deriving DecidableEq, Repr

/-- The calls made by the C code, in the order it makes them. -/
inductive Op where
  | enterCompartment (global : JSObject)
  | leaveCompartment
  | JS_BeginRequest
  | JS_EndRequest
  | gjs_debug (msg : String)
  | g_free (s : String)
  | g_error_free (e : GError)
  | JS_ReportError (msg : String)
  | JS_SetPendingException (v : JSValue)
  | gjs_string_from_utf8 (s : String)
  | JS_GetProperty (obj : Option JSObject) (name : String)
  | JS_New (ctor : JSObject) (args : List JSValue)
  | gjs_error_from_gerror (e : GError) (add_stack : Bool)
  deriving DecidableEq, Repr

/-- The context together with the record of the calls made so far. -/
structure World where
  cx : JSContext
  log : List Op
  deriving DecidableEq, Repr

/-- The engine entry points whose outcome the script engine decides.  Each takes
the context as it is at the call and returns the context as it leaves it,
together with the C return value: `none` is a `false` return (or a null
pointer), `some` a success. -/
structure Engine where
  gjs_string_from_utf8 : JSContext → String → JSContext × Option JSValue
  JS_GetProperty : JSContext → Option JSObject → String → JSContext × Option JSValue
  JS_New : JSContext → JSObject → List JSValue → JSContext × Option JSObject
  gjs_error_from_gerror : JSContext → GError → Bool → JSContext × Option JSObject

/-! ## printf-style formatting -/

/-- One conversion specification: the text produced for the conversion
character `d` and the arguments left over.  `%%`, `%s`, `%d`, `%i` and `%c` are
covered; `none` when `d` is another character or the next argument is missing
or of another kind (outside the defined behaviour of C). -/
def conversion (d : Char) (args : List PrintfArg) : Option (List Char × List PrintfArg) :=
  match d, args with
  | '%', _ => some (['%'], args)
  | 's', PrintfArg.str s :: args' => some (s.toList, args')
  | 'd', PrintfArg.int i :: args' => some ((toString i).toList, args')
  | 'i', PrintfArg.int i :: args' => some ((toString i).toList, args')
  | 'c', PrintfArg.chr x :: args' => some ([x], args')
  | _, _ => none

/-- Expansion of a format over its arguments.  Ordinary characters are copied;
a `%` starts a conversion.  Where `conversion` gives `none` the two characters
are copied as they stand. -/
def vformat : List Char → List PrintfArg → List Char
  | [], _ => []
  | c :: t, args =>
    if c = '%' then
      match t with
      | [] => [c]
      | d :: rest =>
        match conversion d args with
        | some (out, args') => out ++ vformat rest args'
        | none => c :: d :: vformat rest args
    else c :: vformat t args

/-- The glib call `g_strdup_vprintf`: the formatted text in a fresh buffer. -/
def g_strdup_vprintf (format : String) (args : List PrintfArg) : String :=
  String.mk (vformat format.toList args)

/-! ## Engine and host primitives -/

/-- Append one call to the record. -/
def World.emit (w : World) (op : Op) : World :=
  { w with log := w.log ++ [op] }

/-- Modelled from the spec: `gjs_get_import_global`, defined elsewhere in the
repository, gives the global of "the import/root realm" of the context; it is
a field of the context here. -/
def gjs_get_import_global (cx : JSContext) : JSObject := cx.importGlobal

/-- Constructor of `JSAutoCompartment`: enter the compartment of `global`. -/
def JSAutoCompartment_enter (w : World) (global : JSObject) : World :=
  { cx := { w.cx with compartments := global :: w.cx.compartments },
    log := w.log ++ [Op.enterCompartment global] }

/-- Destructor of `JSAutoCompartment`: leave the compartment entered last. -/
def JSAutoCompartment_leave (w : World) : World :=
  { cx := { w.cx with compartments := w.cx.compartments.tail },
    log := w.log ++ [Op.leaveCompartment] }

/-- The engine call `JS_BeginRequest`. -/
def JS_BeginRequest (w : World) : World :=
  { cx := { w.cx with requestDepth := w.cx.requestDepth + 1 },
    log := w.log ++ [Op.JS_BeginRequest] }

/-- The engine call `JS_EndRequest`.  The engine requires a request to be open;
at depth 0 the depth stays 0 here. -/
def JS_EndRequest (w : World) : World :=
  { cx := { w.cx with requestDepth := w.cx.requestDepth - 1 },
    log := w.log ++ [Op.JS_EndRequest] }

/-- The engine query `JS_IsExceptionPending`. -/
def JS_IsExceptionPending (cx : JSContext) : Bool := cx.pending.isSome

/-- The engine call `JS_SetPendingException`: sets the slot unconditionally. -/
def JS_SetPendingException (w : World) (v : JSValue) : World :=
  { cx := { w.cx with pending := some v },
    log := w.log ++ [Op.JS_SetPendingException v] }

/-- Modelled from the spec: the engine call `JS_ReportError`, the "report
low-level error" operation of the host engine, which is not part of this
repository.  It formats its message printf-style and hands it to the engine's
error report; per the spec a low-level report is distinct from installing an
exception, so the pending-exception slot is left as it is. -/
def JS_ReportError (w : World) (format : String) (args : List PrintfArg) : World :=
  w.emit (Op.JS_ReportError (g_strdup_vprintf format args))

/-- Modelled from the spec: `gjs_debug`, defined elsewhere in the repository,
"logs at diagnostic level"; the log line is formatted printf-style and recorded
(the topic is not). -/
def gjs_debug (w : World) (format : String) (args : List PrintfArg) : World :=
  w.emit (Op.gjs_debug (g_strdup_vprintf format args))

/-- The glib call `g_free` on the formatted buffer. -/
def g_free (w : World) (s : String) : World := w.emit (Op.g_free s)

/-- The glib call `g_error_free`. -/
def g_error_free (w : World) (e : GError) : World := w.emit (Op.g_error_free e)

/-- The engine query `JS::CurrentGlobalOrNull`: the global of the compartment
entered last, or null when none is entered. -/
def CurrentGlobalOrNull (cx : JSContext) : Option JSObject := cx.compartments.head?

/-- The value constructor `JS::ObjectOrNullValue` (also `setObjectOrNull`). -/
def ObjectOrNullValue (o : Option JSObject) : JSValue :=
  match o with
  | some obj => JSValue.object obj
  | none => JSValue.null

/-- The test `JS::Value::isNull`. -/
def JSValue.isNull : JSValue → Bool
  | JSValue.null => true
  | _ => false

/-- The test `JS::Value::isObject`. -/
def JSValue.isObject : JSValue → Bool
  | JSValue.object _ => true
  | _ => false

/-! ## The functions of jsapi-util-error.cpp -/

/-- The static function `gjs_throw_valist`.  The control flow of the C
function is kept: the early return when an exception is pending, the two
`goto out` branches with `result = false`, and the common exit at `out:`.  The
`JSAutoCompartment` destructor runs at both returns. -/
def gjs_throw_valist (E : Engine) (w : World) (error_class : String)
    (format : String) (args : List PrintfArg) : World :=
  let s := g_strdup_vprintf format args
  let w := JSAutoCompartment_enter w (gjs_get_import_global w.cx)
  let w := JS_BeginRequest w
  if JS_IsExceptionPending w.cx then
    let w := gjs_debug w "Ignoring second exception: '%s'" [PrintfArg.str s]
    let w := g_free w s
    let w := JS_EndRequest w
    JSAutoCompartment_leave w
  else
    let global := CurrentGlobalOrNull w.cx
    -- out: the common exit, with the value of `result`
    let out (w : World) (result : Bool) : World :=
      let w := if !result then
          JS_ReportError w "Failed to throw exception '%s'" [PrintfArg.str s]
        else w
      let w := g_free w s
      let w := JS_EndRequest w
      JSAutoCompartment_leave w
    let r := E.gjs_string_from_utf8 w.cx s
    let w : World := { cx := r.1, log := w.log ++ [Op.gjs_string_from_utf8 s] }
    match r.2 with
    | none =>
      let w := JS_ReportError w "Failed to copy exception string" []
      out w false
    | some arg0 =>
      let g := E.JS_GetProperty w.cx global error_class
      let w : World := { cx := g.1, log := w.log ++ [Op.JS_GetProperty global error_class] }
      -- v_constructor is undefined unless the lookup stored a value
      let v_constructor := g.2.getD JSValue.undefined
      match g.2.isSome, v_constructor with
      | true, JSValue.object constructor =>
        let n := E.JS_New w.cx constructor [arg0]
        let w : World := { cx := n.1, log := w.log ++ [Op.JS_New constructor [arg0]] }
        let new_exc := ObjectOrNullValue n.2
        let w := JS_SetPendingException w new_exc
        out w true
      | _, _ =>
        let w := JS_ReportError w "??? Missing Error constructor in global object?" []
        out w false

/-- The function `gjs_throw`. -/
def gjs_throw (E : Engine) (w : World) (format : String) (args : List PrintfArg) : World :=
  gjs_throw_valist E w "Error" format args

/-- The function `gjs_throw_custom`. -/
def gjs_throw_custom (E : Engine) (w : World) (error_class : String)
    (format : String) (args : List PrintfArg) : World :=
  gjs_throw_valist E w error_class format args

/-- The function `gjs_throw_literal`. -/
def gjs_throw_literal (E : Engine) (w : World) (string : String) : World :=
  gjs_throw E w "%s" [PrintfArg.str string]

/-- The function `gjs_throw_g_error`; `none` is a NULL `error`. -/
def gjs_throw_g_error (E : Engine) (w : World) (error : Option GError) : World :=
  match error with
  | none => w
  | some e =>
    let w := JS_BeginRequest w
    let r := E.gjs_error_from_gerror w.cx e true
    let w : World := { cx := r.1, log := w.log ++ [Op.gjs_error_from_gerror e true] }
    let err := ObjectOrNullValue r.2
    let w := g_error_free w e
    let w := if !err.isNull then JS_SetPendingException w err else w
    JS_EndRequest w

/-- The world as `gjs_throw_valist` has it once it has entered the compartment of
the import global and begun its request (lines 56 and 58 of the source). -/
def atEntry (w : World) : World :=
  JS_BeginRequest (JSAutoCompartment_enter w (gjs_get_import_global w.cx))

/-- The context `c` after `JS_EndRequest` and the `JSAutoCompartment` destructor. -/
def afterExit (c : JSContext) : JSContext :=
  { c with requestDepth := c.requestDepth - 1, compartments := c.compartments.tail }

/-! ## Reading the record of a call -/

/-- The calls appended to the record between `before` and `after`. -/
def performed (before after : World) : List Op :=
  after.log.drop before.log.length

/-- Whether an operation is a low-level error report. -/
def Op.isReport : Op → Bool
  | Op.JS_ReportError _ => true
  | _ => false

/-- Whether an operation installs a pending exception. -/
def Op.isSetPending : Op → Bool
  | Op.JS_SetPendingException _ => true
  | _ => false

/-- Whether an operation invokes a script constructor. -/
def Op.isNew : Op → Bool
  | Op.JS_New _ _ => true
  | _ => false

/-- Whether an operation releases a native error. -/
def Op.isErrorFree : Op → Bool
  | Op.g_error_free _ => true
  | _ => false

/-! ## Properties of the engine functions used as hypotheses -/

/-- Every engine function leaves the request depth of the context as it found
it: whatever requests it begins, it ends. -/
def Engine.RequestBalanced (E : Engine) : Prop :=
  (∀ cx s, (E.gjs_string_from_utf8 cx s).1.requestDepth = cx.requestDepth) ∧
  (∀ cx o n, (E.JS_GetProperty cx o n).1.requestDepth = cx.requestDepth) ∧
  (∀ cx c a, (E.JS_New cx c a).1.requestDepth = cx.requestDepth) ∧
  (∀ cx e b, (E.gjs_error_from_gerror cx e b).1.requestDepth = cx.requestDepth)

/-! ## Example engines and contexts -/

/-- An engine in which everything succeeds and no call touches the context:
strings convert, every global property is the object `1`, construction yields
the object `7`, and every native error converts to the object `9`. -/
def okEngine : Engine where
  gjs_string_from_utf8 := fun cx s => (cx, some (JSValue.string s))
  JS_GetProperty := fun cx _ _ => (cx, some (JSValue.object 1))
  JS_New := fun cx _ _ => (cx, some 7)
  gjs_error_from_gerror := fun cx _ _ => (cx, some 9)

/-- As `okEngine`, but the constructor throws: `JS_New` returns null and leaves
the exception object `5` pending. -/
def newThrowsEngine : Engine :=
  { okEngine with JS_New := fun cx _ _ => ({ cx with pending := some (JSValue.object 5) }, none) }

/-- As `okEngine`, but `JS_New` leaves the exception object `5` pending although
it returns the object `7`. -/
def newLeavesPendingEngine : Engine :=
  { okEngine with
    JS_New := fun cx _ _ => ({ cx with pending := some (JSValue.object 5) }, some 7) }

/-- As `okEngine`, but no property of the global is defined: every lookup
succeeds with the value `undefined`. -/
def noCtorEngine : Engine :=
  { okEngine with JS_GetProperty := fun cx _ _ => (cx, some JSValue.undefined) }

/-- As `okEngine`, but strings fail to convert. -/
def noStringEngine : Engine :=
  { okEngine with gjs_string_from_utf8 := fun cx _ => (cx, none) }

/-- As `okEngine`, but the native-error converter returns null. -/
def nullConvEngine : Engine :=
  { okEngine with gjs_error_from_gerror := fun cx _ _ => (cx, none) }

/-- A context with nothing pending, at depth 0, with import global `100`. -/
def cx0 : JSContext :=
  { pending := none, requestDepth := 0, compartments := [], importGlobal := 100 }

/-- The world of `cx0` with an empty record. -/
def w0 : World := { cx := cx0, log := [] }

/-- A world in which the exception object `3` is already pending, at depth 2. -/
def wPending : World :=
  { cx := { pending := some (JSValue.object 3), requestDepth := 2, compartments := [50],
            importGlobal := 100 },
    log := [] }

/-- A native error. -/
def err0 : GError := { domain := 1, code := 2, message := "no such file" }

/-! ## Formatting of the fixed messages -/

theorem fmt_percent_s (t : String) : g_strdup_vprintf "%s" [PrintfArg.str t] = t := by
  simp [g_strdup_vprintf, vformat, conversion]

/-- The text of the fallback report. -/
theorem fmt_failed_to_throw (s : String) :
    g_strdup_vprintf "Failed to throw exception '%s'" [PrintfArg.str s]
      = "Failed to throw exception '" ++ s ++ "'" := by
  apply String.ext
  simp [g_strdup_vprintf, vformat, conversion]

/-- The text of the debug line for an ignored second exception. -/
theorem fmt_ignoring (s : String) :
    g_strdup_vprintf "Ignoring second exception: '%s'" [PrintfArg.str s]
      = "Ignoring second exception: '" ++ s ++ "'" := by
  apply String.ext
  simp [g_strdup_vprintf, vformat, conversion]

/-- A format without conversions expands to itself (string-copy report). -/
theorem fmt_copy : g_strdup_vprintf "Failed to copy exception string" [] = "Failed to copy exception string" := by
  apply String.ext
  simp [g_strdup_vprintf, vformat, conversion]

/-- A format without conversions expands to itself (missing-constructor report). -/
theorem fmt_missing : g_strdup_vprintf "??? Missing Error constructor in global object?" [] = "??? Missing Error constructor in global object?" := by
  apply String.ext
  simp [g_strdup_vprintf, vformat, conversion]

/-- The calls performed, when the record grew by `ops`, are `ops`. -/
theorem performed_append (w : World) (c : JSContext) (ops : List Op) :
    performed w { cx := c, log := w.log ++ ops } = ops := by
  simp [performed]

/-- The branch of `gjs_throw_valist` taken when an exception is pending (lines 60-75). -/
theorem valist_of_pending (E : Engine) (w : World) (cls fmt : String) (args : List PrintfArg)
    (v : JSValue) (hv : w.cx.pending = some v) :
    gjs_throw_valist E w cls fmt args =
      { cx := w.cx,
        log := w.log ++ [Op.enterCompartment w.cx.importGlobal, Op.JS_BeginRequest,
          Op.gjs_debug ("Ignoring second exception: '" ++ g_strdup_vprintf fmt args ++ "'"),
          Op.g_free (g_strdup_vprintf fmt args), Op.JS_EndRequest, Op.leaveCompartment] } := by
  obtain ⟨⟨p, d, cs, g⟩, l⟩ := w
  simp only at hv
  subst hv
  simp [gjs_throw_valist, JSAutoCompartment_enter, JS_BeginRequest, JS_IsExceptionPending,
    gjs_debug, g_free, JS_EndRequest, JSAutoCompartment_leave, World.emit, fmt_ignoring,
    gjs_get_import_global]

/-- The branch of `gjs_throw_valist` taken when the string conversion fails (lines 83-86). -/
theorem valist_of_string_fail (E : Engine) (w : World) (cls fmt : String) (args : List PrintfArg)
    (c1 : JSContext) (hp : w.cx.pending = none)
    (hs : E.gjs_string_from_utf8 (atEntry w).cx (g_strdup_vprintf fmt args) = (c1, none)) :
    gjs_throw_valist E w cls fmt args =
      { cx := afterExit c1,
        log := w.log ++ [Op.enterCompartment w.cx.importGlobal, Op.JS_BeginRequest,
          Op.gjs_string_from_utf8 (g_strdup_vprintf fmt args),
          Op.JS_ReportError "Failed to copy exception string",
          Op.JS_ReportError ("Failed to throw exception '" ++ g_strdup_vprintf fmt args ++ "'"),
          Op.g_free (g_strdup_vprintf fmt args), Op.JS_EndRequest, Op.leaveCompartment] } := by
  obtain ⟨⟨p, d, cs, g⟩, l⟩ := w
  simp only at hp
  subst hp
  simp only [atEntry, JSAutoCompartment_enter, JS_BeginRequest, gjs_get_import_global] at hs
  simp [gjs_throw_valist, JSAutoCompartment_enter, JS_BeginRequest, JS_IsExceptionPending, hs,
    gjs_debug, g_free, JS_EndRequest, JSAutoCompartment_leave, World.emit, fmt_failed_to_throw,
    fmt_copy, JS_ReportError, afterExit, gjs_get_import_global]

/-- The branch of `gjs_throw_valist` taken when the constructor lookup fails or does
not yield an object (lines 88-92). -/
theorem valist_of_lookup_fail (E : Engine) (w : World) (cls fmt : String) (args : List PrintfArg)
    (c1 c2 : JSContext) (v : JSValue) (g : Option JSValue) (hp : w.cx.pending = none)
    (hs : E.gjs_string_from_utf8 (atEntry w).cx (g_strdup_vprintf fmt args) = (c1, some v))
    (hg : E.JS_GetProperty c1 (some (gjs_get_import_global w.cx)) cls = (c2, g))
    (hno : ∀ o, g ≠ some (JSValue.object o)) :
    gjs_throw_valist E w cls fmt args =
      { cx := afterExit c2,
        log := w.log ++ [Op.enterCompartment w.cx.importGlobal, Op.JS_BeginRequest,
          Op.gjs_string_from_utf8 (g_strdup_vprintf fmt args),
          Op.JS_GetProperty (some (gjs_get_import_global w.cx)) cls,
          Op.JS_ReportError "??? Missing Error constructor in global object?",
          Op.JS_ReportError ("Failed to throw exception '" ++ g_strdup_vprintf fmt args ++ "'"),
          Op.g_free (g_strdup_vprintf fmt args), Op.JS_EndRequest, Op.leaveCompartment] } := by
  obtain ⟨⟨p, d, cs, gl⟩, l⟩ := w
  simp only at hp
  subst hp
  simp only [atEntry, JSAutoCompartment_enter, JS_BeginRequest, gjs_get_import_global] at hs hg
  rcases g with _ | val
  · simp [gjs_throw_valist, JSAutoCompartment_enter, JS_BeginRequest, JS_IsExceptionPending, hs, hg,
      gjs_debug, g_free, JS_EndRequest, JSAutoCompartment_leave, World.emit, fmt_failed_to_throw,
      fmt_missing, JS_ReportError, afterExit, gjs_get_import_global, CurrentGlobalOrNull]
  · cases val with
    | object o => exact absurd rfl (hno o)
    | _ =>
      simp [gjs_throw_valist, JSAutoCompartment_enter, JS_BeginRequest, JS_IsExceptionPending, hs, hg,
        gjs_debug, g_free, JS_EndRequest, JSAutoCompartment_leave, World.emit, fmt_failed_to_throw,
        fmt_missing, JS_ReportError, afterExit, gjs_get_import_global, CurrentGlobalOrNull]

/-- The branch of `gjs_throw_valist` that constructs and installs (lines 94-99). -/
theorem valist_of_lookup_ok (E : Engine) (w : World) (cls fmt : String) (args : List PrintfArg)
    (c1 c2 c3 : JSContext) (v : JSValue) (ctor : JSObject) (r : Option JSObject)
    (hp : w.cx.pending = none)
    (hs : E.gjs_string_from_utf8 (atEntry w).cx (g_strdup_vprintf fmt args) = (c1, some v))
    (hg : E.JS_GetProperty c1 (some (gjs_get_import_global w.cx)) cls
            = (c2, some (JSValue.object ctor)))
    (hn : E.JS_New c2 ctor [v] = (c3, r)) :
    gjs_throw_valist E w cls fmt args =
      { cx := afterExit { c3 with pending := some (ObjectOrNullValue r) },
        log := w.log ++ [Op.enterCompartment w.cx.importGlobal, Op.JS_BeginRequest,
          Op.gjs_string_from_utf8 (g_strdup_vprintf fmt args),
          Op.JS_GetProperty (some (gjs_get_import_global w.cx)) cls,
          Op.JS_New ctor [v],
          Op.JS_SetPendingException (ObjectOrNullValue r),
          Op.g_free (g_strdup_vprintf fmt args), Op.JS_EndRequest, Op.leaveCompartment] } := by
  obtain ⟨⟨p, d, cs, gl⟩, l⟩ := w
  simp only at hp
  subst hp
  simp only [atEntry, JSAutoCompartment_enter, JS_BeginRequest, gjs_get_import_global] at hs hg
  simp [gjs_throw_valist, JSAutoCompartment_enter, JS_BeginRequest, JS_IsExceptionPending, hs, hg, hn,
    gjs_debug, g_free, JS_EndRequest, JSAutoCompartment_leave, World.emit,
    JS_SetPendingException, afterExit, gjs_get_import_global, CurrentGlobalOrNull]

/-- The result of `gjs_throw_g_error` on a non-NULL error (lines 181-189). -/
theorem g_error_of_some (E : Engine) (w : World) (e : GError) (c1 : JSContext)
    (r : Option JSObject)
    (hc : E.gjs_error_from_gerror (JS_BeginRequest w).cx e true = (c1, r)) :
    gjs_throw_g_error E w (some e) =
      { cx := { c1 with
                pending := match r with
                  | some o => some (JSValue.object o)
                  | none => c1.pending,
                requestDepth := c1.requestDepth - 1 },
        log := w.log ++ [Op.JS_BeginRequest, Op.gjs_error_from_gerror e true, Op.g_error_free e]
          ++ (match r with
              | some o => [Op.JS_SetPendingException (JSValue.object o)]
              | none => [])
          ++ [Op.JS_EndRequest] } := by
  simp only [JS_BeginRequest] at hc
  cases r <;>
  simp [gjs_throw_g_error, JS_BeginRequest, hc, g_error_free, World.emit, ObjectOrNullValue,
    JSValue.isNull, JS_SetPendingException, JS_EndRequest]

/-! ## The throw path installs the constructed value -/

/-- C1: with no exception pending, when the formatted message converts to the
script string `v` and the property `cls` of the global is the object `ctor`,
`gjs_throw_custom` leaves as pending exactly the value of `JS_New ctor [v]`,
invokes `JS_New` once with that single argument, and makes no low-level report;
`gjs_throw` is the same call with the class name "Error". -/
theorem throw_custom_installs_constructed (E : Engine) (w : World) (cls fmt : String)
    (args : List PrintfArg) (c1 c2 c3 : JSContext) (v : JSValue) (ctor : JSObject)
    (r : Option JSObject)
    (hp : w.cx.pending = none)
    (hs : E.gjs_string_from_utf8 (atEntry w).cx (g_strdup_vprintf fmt args) = (c1, some v))
    (hg : E.JS_GetProperty c1 (some (gjs_get_import_global w.cx)) cls
            = (c2, some (JSValue.object ctor)))
    (hn : E.JS_New c2 ctor [v] = (c3, r)) :
    (gjs_throw_custom E w cls fmt args).cx.pending = some (ObjectOrNullValue r) ∧
    (performed w (gjs_throw_custom E w cls fmt args)).filter Op.isNew = [Op.JS_New ctor [v]] ∧
    (performed w (gjs_throw_custom E w cls fmt args)).filter Op.isReport = [] ∧
    gjs_throw E w fmt args = gjs_throw_custom E w "Error" fmt args := by
  unfold gjs_throw gjs_throw_custom
  rw [valist_of_lookup_ok E w cls fmt args c1 c2 c3 v ctor r hp hs hg hn, performed_append]
  simp [afterExit, Op.isNew, Op.isReport]

/-- Witness of C1: a `TypeError` thrown on a fresh context in the engine where
everything succeeds. -/
theorem throw_custom_installs_constructed_witness :
    w0.cx.pending = none ∧
    okEngine.gjs_string_from_utf8 (atEntry w0).cx (g_strdup_vprintf "bad %s" [PrintfArg.str "x"])
      = ((atEntry w0).cx, some (JSValue.string "bad x")) ∧
    okEngine.JS_GetProperty (atEntry w0).cx (some (gjs_get_import_global w0.cx)) "TypeError"
      = ((atEntry w0).cx, some (JSValue.object 1)) ∧
    okEngine.JS_New (atEntry w0).cx 1 [JSValue.string "bad x"] = ((atEntry w0).cx, some 7) ∧
    (gjs_throw_custom okEngine w0 "TypeError" "bad %s" [PrintfArg.str "x"]).cx.pending
      = some (ObjectOrNullValue (some 7)) :=
  ⟨rfl, rfl, rfl, rfl,
    (throw_custom_installs_constructed okEngine w0 "TypeError" "bad %s" [PrintfArg.str "x"]
      (atEntry w0).cx (atEntry w0).cx (atEntry w0).cx (JSValue.string "bad x") 1 (some 7)
      rfl rfl rfl rfl).1⟩

/-! ## An exception that is pending is not overwritten by a throw -/

/-- C2: when an exception is pending on `w`, each of `gjs_throw_custom`,
`gjs_throw` and `gjs_throw_literal` leaves the context as it was and performs
only: enter compartment, begin request, debug log, free the buffer, end
request, leave compartment (so nothing is constructed, installed or reported).
And when an exception is pending after a throw `A` on any world `u`, a further
throw leaves that same exception pending. -/
theorem throw_no_overwrite (E : Engine) (w : World) (v : JSValue)
    (hv : w.cx.pending = some v) (cls fmt : String) (args : List PrintfArg) (text : String)
    (u : World) (clsA fmtA : String) (argsA : List PrintfArg) (a : JSValue)
    (hA : (gjs_throw_custom E u clsA fmtA argsA).cx.pending = some a) :
    ((gjs_throw_custom E w cls fmt args).cx = w.cx ∧
      performed w (gjs_throw_custom E w cls fmt args) =
        [Op.enterCompartment w.cx.importGlobal, Op.JS_BeginRequest,
          Op.gjs_debug ("Ignoring second exception: '" ++ g_strdup_vprintf fmt args ++ "'"),
          Op.g_free (g_strdup_vprintf fmt args), Op.JS_EndRequest, Op.leaveCompartment]) ∧
    ((gjs_throw E w fmt args).cx = w.cx ∧
      performed w (gjs_throw E w fmt args) =
        [Op.enterCompartment w.cx.importGlobal, Op.JS_BeginRequest,
          Op.gjs_debug ("Ignoring second exception: '" ++ g_strdup_vprintf fmt args ++ "'"),
          Op.g_free (g_strdup_vprintf fmt args), Op.JS_EndRequest, Op.leaveCompartment]) ∧
    ((gjs_throw_literal E w text).cx = w.cx ∧
      performed w (gjs_throw_literal E w text) =
        [Op.enterCompartment w.cx.importGlobal, Op.JS_BeginRequest,
          Op.gjs_debug ("Ignoring second exception: '" ++ text ++ "'"),
          Op.g_free text, Op.JS_EndRequest, Op.leaveCompartment]) ∧
    (gjs_throw_custom E (gjs_throw_custom E u clsA fmtA argsA) cls fmt args).cx.pending
      = some a ∧
    (performed (gjs_throw_custom E u clsA fmtA argsA)
      (gjs_throw_custom E (gjs_throw_custom E u clsA fmtA argsA) cls fmt args)).filter
        (fun op => op.isSetPending || op.isNew || op.isReport) = [] := by
  unfold gjs_throw_literal gjs_throw gjs_throw_custom at *
  rw [valist_of_pending E w cls fmt args v hv, valist_of_pending E w "Error" fmt args v hv,
    valist_of_pending E w "Error" "%s" [PrintfArg.str text] v hv, fmt_percent_s,
    valist_of_pending E _ cls fmt args a hA]
  simp only [performed_append, hA]
  simp [Op.isSetPending, Op.isNew, Op.isReport]

/-- Witness of C2: a throw on a world with the object `3` pending, and the
sequence of two throws on a fresh world. -/
theorem throw_no_overwrite_witness :
    wPending.cx.pending = some (JSValue.object 3) ∧
    (gjs_throw_custom okEngine w0 "Error" "A" []).cx.pending = some (JSValue.object 7) ∧
    (gjs_throw_custom okEngine wPending "TypeError" "B %d" [PrintfArg.int 2]).cx = wPending.cx ∧
    (gjs_throw_custom okEngine (gjs_throw_custom okEngine w0 "Error" "A" []) "TypeError" "B %d"
      [PrintfArg.int 2]).cx.pending = some (JSValue.object 7) :=
  have h := throw_no_overwrite okEngine wPending (JSValue.object 3) rfl "TypeError" "B %d"
    [PrintfArg.int 2] "lit" w0 "Error" "A" [] (JSValue.object 7) rfl
  ⟨rfl, rfl, h.1.1, h.2.2.2.1⟩

/-! ## The native-error path -/

/-- C8: on a NULL error `gjs_throw_g_error` returns the world it was given,
whatever the engine: the pending slot is unchanged and no call at all is
performed (no converter, no request, no release). -/
theorem throw_g_error_null_is_noop (E : Engine) (w : World) :
    gjs_throw_g_error E w none = w ∧
    (gjs_throw_g_error E w none).cx.pending = w.cx.pending ∧
    performed w (gjs_throw_g_error E w none) = [] := by
  simp [gjs_throw_g_error, performed]

/-- C4: on a non-NULL error `e`, the calls performed by `gjs_throw_g_error`
contain exactly one `g_error_free`, and it is of `e`; this for every engine
(converter returning an object or null) and every world (anything pending or
not). -/
theorem throw_g_error_frees_once (E : Engine) (w : World) (e : GError) :
    (performed w (gjs_throw_g_error E w (some e))).filter Op.isErrorFree = [Op.g_error_free e] ∧
    (performed w (gjs_throw_g_error E w (some e))).count (Op.g_error_free e) = 1 := by
  rcases hc : E.gjs_error_from_gerror (JS_BeginRequest w).cx e true with ⟨c1, r⟩
  rw [g_error_of_some E w e c1 r hc]
  simp only [List.append_assoc, performed_append]
  cases r <;> simp [Op.isErrorFree, List.count_cons]

/-- C3, as stated, fails: in the engine whose converter returns null, after
`gjs_throw "A"` (which installs the object `7`) and `gjs_throw_g_error` of
`err0`, the pending exception is still the object `7` of the throw, not the
converted form of the error (null). -/
theorem throw_g_error_null_conversion_keeps_previous :
    (gjs_throw nullConvEngine w0 "A" []).cx.pending = some (JSValue.object 7) ∧
    (nullConvEngine.gjs_error_from_gerror
      (JS_BeginRequest (gjs_throw nullConvEngine w0 "A" [])).cx err0 true).2 = none ∧
    (gjs_throw_g_error nullConvEngine (gjs_throw nullConvEngine w0 "A" []) (some err0)).cx.pending
      = some (JSValue.object 7) ∧
    (gjs_throw_g_error nullConvEngine (gjs_throw nullConvEngine w0 "A" []) (some err0)).cx.pending
      ≠ some (ObjectOrNullValue (nullConvEngine.gjs_error_from_gerror
          (JS_BeginRequest (gjs_throw nullConvEngine w0 "A" [])).cx err0 true).2) := by
  decide

/-- C3, amended: after a throw `A` and `gjs_throw_g_error` of a non-NULL error
`N`, when the converter returns the object `o` the pending exception is `o`,
whatever `A` left pending; when the converter returns null, nothing is
installed and the slot is as the converter left it. -/
theorem throw_g_error_overwrites_when_converted (E : Engine) (u : World) (fmt : String)
    (args : List PrintfArg) (N : GError) (c1 : JSContext) (r : Option JSObject)
    (hc : E.gjs_error_from_gerror (JS_BeginRequest (gjs_throw E u fmt args)).cx N true = (c1, r)) :
    (∀ o, r = some o →
      (gjs_throw_g_error E (gjs_throw E u fmt args) (some N)).cx.pending
        = some (JSValue.object o)) ∧
    (r = none →
      (gjs_throw_g_error E (gjs_throw E u fmt args) (some N)).cx.pending = c1.pending ∧
      (performed (gjs_throw E u fmt args)
        (gjs_throw_g_error E (gjs_throw E u fmt args) (some N))).filter Op.isSetPending = []) := by
  rw [g_error_of_some E _ N c1 r hc]
  simp only [List.append_assoc, performed_append]
  constructor
  · intro o ho
    subst ho
    rfl
  · intro hr
    subst hr
    simp [Op.isSetPending]

/-- Witness of the amended C3: the converter of `okEngine` returns the object
`9`, which replaces the object `7` installed by the throw. -/
theorem throw_g_error_overwrites_when_converted_witness :
    okEngine.gjs_error_from_gerror (JS_BeginRequest (gjs_throw okEngine w0 "A" [])).cx err0 true
      = ((JS_BeginRequest (gjs_throw okEngine w0 "A" [])).cx, some 9) ∧
    (gjs_throw okEngine w0 "A" []).cx.pending = some (JSValue.object 7) ∧
    (gjs_throw_g_error okEngine (gjs_throw okEngine w0 "A" []) (some err0)).cx.pending
      = some (JSValue.object 9) :=
  ⟨rfl, by decide,
    (throw_g_error_overwrites_when_converted okEngine w0 "A" [] err0
      (JS_BeginRequest (gjs_throw okEngine w0 "A" [])).cx (some 9) rfl).1 9 rfl⟩

/-! ## Scope balance -/

/-- The calls of `gjs_throw_valist` on every branch: exactly one
`JS_BeginRequest` and one `JS_EndRequest`, and a request depth that is restored
when the engine functions are request-balanced. -/
theorem valist_requests (E : Engine) (w : World) (cls fmt : String) (args : List PrintfArg) :
    ∃ c ops, gjs_throw_valist E w cls fmt args = { cx := c, log := w.log ++ ops } ∧
      ops.count Op.JS_BeginRequest = 1 ∧ ops.count Op.JS_EndRequest = 1 ∧
      (E.RequestBalanced → c.requestDepth = w.cx.requestDepth) := by
  have hd : (atEntry w).cx.requestDepth = w.cx.requestDepth + 1 := rfl
  rcases hp : w.cx.pending with _ | v
  · rcases hs : E.gjs_string_from_utf8 (atEntry w).cx (g_strdup_vprintf fmt args) with ⟨c1, _ | sv⟩
    · refine ⟨_, _, valist_of_string_fail E w cls fmt args c1 hp hs, by simp [List.count_cons],
        by simp [List.count_cons], ?_⟩
      intro hb
      have h1 := hb.1 (atEntry w).cx (g_strdup_vprintf fmt args)
      simp only [hs] at h1
      simp only [afterExit]
      omega
    · have h1 : E.RequestBalanced → c1.requestDepth = w.cx.requestDepth + 1 := by
        intro hb
        have h := hb.1 (atEntry w).cx (g_strdup_vprintf fmt args)
        simp only [hs] at h
        omega
      rcases hg : E.JS_GetProperty c1 (some (gjs_get_import_global w.cx)) cls with ⟨c2, g⟩
      have h2 : E.RequestBalanced → c2.requestDepth = w.cx.requestDepth + 1 := by
        intro hb
        have h := hb.2.1 c1 (some (gjs_get_import_global w.cx)) cls
        simp only [hg] at h
        have := h1 hb
        omega
      by_cases hobj : ∃ o, g = some (JSValue.object o)
      · obtain ⟨ctor, rfl⟩ := hobj
        rcases hn : E.JS_New c2 ctor [sv] with ⟨c3, r⟩
        refine ⟨_, _, valist_of_lookup_ok E w cls fmt args c1 c2 c3 sv ctor r hp hs hg hn,
          by simp [List.count_cons], by simp [List.count_cons], ?_⟩
        intro hb
        have h := hb.2.2.1 c2 ctor [sv]
        simp only [hn] at h
        have := h2 hb
        simp only [afterExit]
        omega
      · have hno : ∀ o, g ≠ some (JSValue.object o) := fun o ho => hobj ⟨o, ho⟩
        refine ⟨_, _, valist_of_lookup_fail E w cls fmt args c1 c2 sv g hp hs hg hno,
          by simp [List.count_cons], by simp [List.count_cons], ?_⟩
        intro hb
        have := h2 hb
        simp only [afterExit]
        omega
  · exact ⟨_, _, valist_of_pending E w cls fmt args v hp, by simp [List.count_cons],
      by simp [List.count_cons], fun _ => rfl⟩

/-- The calls of `gjs_throw_g_error` on every branch: as many `JS_BeginRequest`
as `JS_EndRequest`, and a request depth that is restored when the engine
functions are request-balanced. -/
theorem g_error_requests (E : Engine) (w : World) (err : Option GError) :
    ∃ c ops, gjs_throw_g_error E w err = { cx := c, log := w.log ++ ops } ∧
      ops.count Op.JS_BeginRequest = ops.count Op.JS_EndRequest ∧
      (E.RequestBalanced → c.requestDepth = w.cx.requestDepth) := by
  cases err with
  | none => exact ⟨w.cx, [], by simp [gjs_throw_g_error], rfl, fun _ => rfl⟩
  | some e =>
    rcases hc : E.gjs_error_from_gerror (JS_BeginRequest w).cx e true with ⟨c1, r⟩
    refine ⟨_, _, by rw [g_error_of_some E w e c1 r hc, List.append_assoc, List.append_assoc], ?_, ?_⟩
    · cases r <;> simp [List.count_cons]
    · intro hb
      have h := hb.2.2.2 (JS_BeginRequest w).cx e true
      simp only [hc] at h
      have hd : (JS_BeginRequest w).cx.requestDepth = w.cx.requestDepth + 1 := rfl
      simp only
      omega

/-- C5: for every engine, world and arguments (hence on every branch), each of
`gjs_throw`, `gjs_throw_custom`, `gjs_throw_literal` and `gjs_throw_g_error`
performs as many `JS_BeginRequest` as `JS_EndRequest` calls; and when the
engine functions called in between are themselves request-balanced, the request
depth of the context after the call equals its depth before. -/
theorem scope_balance (E : Engine) (w : World) (cls fmt : String) (args : List PrintfArg)
    (text : String) (err : Option GError) :
    ((performed w (gjs_throw E w fmt args)).count Op.JS_BeginRequest
        = (performed w (gjs_throw E w fmt args)).count Op.JS_EndRequest ∧
      (performed w (gjs_throw_custom E w cls fmt args)).count Op.JS_BeginRequest
        = (performed w (gjs_throw_custom E w cls fmt args)).count Op.JS_EndRequest ∧
      (performed w (gjs_throw_literal E w text)).count Op.JS_BeginRequest
        = (performed w (gjs_throw_literal E w text)).count Op.JS_EndRequest ∧
      (performed w (gjs_throw_g_error E w err)).count Op.JS_BeginRequest
        = (performed w (gjs_throw_g_error E w err)).count Op.JS_EndRequest) ∧
    (E.RequestBalanced →
      (gjs_throw E w fmt args).cx.requestDepth = w.cx.requestDepth ∧
      (gjs_throw_custom E w cls fmt args).cx.requestDepth = w.cx.requestDepth ∧
      (gjs_throw_literal E w text).cx.requestDepth = w.cx.requestDepth ∧
      (gjs_throw_g_error E w err).cx.requestDepth = w.cx.requestDepth) := by
  unfold gjs_throw_literal gjs_throw gjs_throw_custom
  obtain ⟨ca, oa, ha, ha1, ha2, ha3⟩ := valist_requests E w "Error" fmt args
  obtain ⟨cb, ob, hb, hb1, hb2, hb3⟩ := valist_requests E w cls fmt args
  obtain ⟨cc, oc, hc, hc1, hc2, hc3⟩ := valist_requests E w "Error" "%s" [PrintfArg.str text]
  obtain ⟨cd, od, hd, hd1, hd2⟩ := g_error_requests E w err
  rw [ha, hb, hc, hd]
  simp only [performed_append]
  exact ⟨⟨by omega, by omega, by omega, hd1⟩, fun h => ⟨ha3 h, hb3 h, hc3 h, hd2 h⟩⟩

/-- The engine `okEngine` is request-balanced: its functions return the context
they were given. -/
theorem okEngine_requestBalanced : okEngine.RequestBalanced :=
  ⟨fun _ _ => rfl, fun _ _ _ => rfl, fun _ _ _ => rfl, fun _ _ _ => rfl⟩

/-- Witness of C5: a throw and a native-error throw at depth 2 in `okEngine`. -/
theorem scope_balance_witness :
    okEngine.RequestBalanced ∧
    (performed wPending (gjs_throw_g_error okEngine wPending (some err0))).count Op.JS_BeginRequest
      = (performed wPending (gjs_throw_g_error okEngine wPending (some err0))).count
          Op.JS_EndRequest ∧
    (gjs_throw okEngine wPending "x" []).cx.requestDepth = wPending.cx.requestDepth ∧
    (gjs_throw_g_error okEngine wPending (some err0)).cx.requestDepth
      = wPending.cx.requestDepth :=
  have h := scope_balance okEngine wPending "TypeError" "x" [] "lit" (some err0)
  ⟨okEngine_requestBalanced, h.1.2.2.2, (h.2 okEngine_requestBalanced).1,
    (h.2 okEngine_requestBalanced).2.2.2⟩

/-! ## Literal text -/

/-- C6: `gjs_throw_literal text` is `gjs_throw` (and `gjs_throw_custom` with
class "Error") on the format "%s" with the single argument `text`; that format
expands to exactly `text`, whatever characters `text` holds; and with nothing
pending and the constructor `Error` present, the string converted and passed to
the constructor is that of `text` itself, and the value constructed from it is
the one left pending. -/
theorem throw_literal_exact (E : Engine) (w : World) (text : String) :
    gjs_throw_literal E w text = gjs_throw E w "%s" [PrintfArg.str text] ∧
    gjs_throw_literal E w text = gjs_throw_custom E w "Error" "%s" [PrintfArg.str text] ∧
    g_strdup_vprintf "%s" [PrintfArg.str text] = text ∧
    (∀ (c1 c2 c3 : JSContext) (v : JSValue) (ctor : JSObject) (r : Option JSObject),
      w.cx.pending = none →
      E.gjs_string_from_utf8 (atEntry w).cx text = (c1, some v) →
      E.JS_GetProperty c1 (some (gjs_get_import_global w.cx)) "Error"
        = (c2, some (JSValue.object ctor)) →
      E.JS_New c2 ctor [v] = (c3, r) →
      performed w (gjs_throw_literal E w text) =
        [Op.enterCompartment w.cx.importGlobal, Op.JS_BeginRequest,
          Op.gjs_string_from_utf8 text,
          Op.JS_GetProperty (some (gjs_get_import_global w.cx)) "Error",
          Op.JS_New ctor [v],
          Op.JS_SetPendingException (ObjectOrNullValue r),
          Op.g_free text, Op.JS_EndRequest, Op.leaveCompartment] ∧
      (gjs_throw_literal E w text).cx.pending = some (ObjectOrNullValue r)) := by
  refine ⟨rfl, rfl, fmt_percent_s text, ?_⟩
  intro c1 c2 c3 v ctor r hp hs hg hn
  unfold gjs_throw_literal gjs_throw
  have hs' : E.gjs_string_from_utf8 (atEntry w).cx (g_strdup_vprintf "%s" [PrintfArg.str text])
      = (c1, some v) := by rw [fmt_percent_s]; exact hs
  rw [valist_of_lookup_ok E w "Error" "%s" [PrintfArg.str text] c1 c2 c3 v ctor r hp hs' hg hn,
    performed_append, fmt_percent_s]
  simp [afterExit]

/-- Witness of C6: the text "100% guaranteed" on a fresh context in `okEngine`
reaches the constructor unaltered. -/
theorem throw_literal_exact_witness :
    w0.cx.pending = none ∧
    okEngine.gjs_string_from_utf8 (atEntry w0).cx "100% guaranteed"
      = ((atEntry w0).cx, some (JSValue.string "100% guaranteed")) ∧
    okEngine.JS_GetProperty (atEntry w0).cx (some (gjs_get_import_global w0.cx)) "Error"
      = ((atEntry w0).cx, some (JSValue.object 1)) ∧
    okEngine.JS_New (atEntry w0).cx 1 [JSValue.string "100% guaranteed"]
      = ((atEntry w0).cx, some 7) ∧
    performed w0 (gjs_throw_literal okEngine w0 "100% guaranteed") =
      [Op.enterCompartment w0.cx.importGlobal, Op.JS_BeginRequest,
        Op.gjs_string_from_utf8 "100% guaranteed",
        Op.JS_GetProperty (some (gjs_get_import_global w0.cx)) "Error",
        Op.JS_New 1 [JSValue.string "100% guaranteed"],
        Op.JS_SetPendingException (ObjectOrNullValue (some 7)),
        Op.g_free "100% guaranteed", Op.JS_EndRequest, Op.leaveCompartment] ∧
    (gjs_throw_literal okEngine w0 "100% guaranteed").cx.pending
      = some (ObjectOrNullValue (some 7)) :=
  ⟨rfl, rfl, rfl, rfl,
    (throw_literal_exact okEngine w0 "100% guaranteed").2.2.2 (atEntry w0).cx (atEntry w0).cx
      (atEntry w0).cx (JSValue.string "100% guaranteed") 1 (some 7) rfl rfl rfl rfl⟩

/-! ## The fallback of the throw path -/

/-- C7: with no exception pending, when the constructor `cls` is absent from
the global (the lookup, made on the context the string conversion left, fails
or yields a value that is not an object), `gjs_throw_custom` (and `gjs_throw`,
the same call with "Error") performs no `JS_SetPendingException`, leaves the
pending slot as the last engine call left it, and reports the low-level error
"Failed to throw exception '<message>'", whose text contains the formatted
message.  This holds as well when the string conversion fails before the
lookup is reached. -/
theorem throw_missing_constructor_reports (E : Engine) (w : World) (cls fmt : String)
    (args : List PrintfArg)
    (hp : w.cx.pending = none)
    (habs : ∀ o, (E.JS_GetProperty
        (E.gjs_string_from_utf8 (atEntry w).cx (g_strdup_vprintf fmt args)).1
        (some (gjs_get_import_global w.cx)) cls).2 ≠ some (JSValue.object o)) :
    (performed w (gjs_throw_custom E w cls fmt args)).filter Op.isSetPending = [] ∧
    Op.JS_ReportError ("Failed to throw exception '" ++ g_strdup_vprintf fmt args ++ "'")
      ∈ performed w (gjs_throw_custom E w cls fmt args) ∧
    (∃ m a b, Op.JS_ReportError m ∈ performed w (gjs_throw_custom E w cls fmt args) ∧
      m = a ++ g_strdup_vprintf fmt args ++ b) ∧
    ((E.gjs_string_from_utf8 (atEntry w).cx (g_strdup_vprintf fmt args)).2 = none →
      (gjs_throw_custom E w cls fmt args).cx.pending
        = (E.gjs_string_from_utf8 (atEntry w).cx (g_strdup_vprintf fmt args)).1.pending) ∧
    ((E.gjs_string_from_utf8 (atEntry w).cx (g_strdup_vprintf fmt args)).2 ≠ none →
      (gjs_throw_custom E w cls fmt args).cx.pending
        = (E.JS_GetProperty
            (E.gjs_string_from_utf8 (atEntry w).cx (g_strdup_vprintf fmt args)).1
            (some (gjs_get_import_global w.cx)) cls).1.pending) ∧
    gjs_throw E w fmt args = gjs_throw_custom E w "Error" fmt args := by
  unfold gjs_throw gjs_throw_custom
  rcases hs : E.gjs_string_from_utf8 (atEntry w).cx (g_strdup_vprintf fmt args) with ⟨c1, _ | v⟩
  · rw [valist_of_string_fail E w cls fmt args c1 hp hs, performed_append]
    refine ⟨by simp [Op.isSetPending], by simp, ?_, fun _ => rfl, fun h => absurd rfl h, rfl⟩
    exact ⟨_, "Failed to throw exception '", "'", by simp, rfl⟩
  · rw [hs] at habs
    rcases hg : E.JS_GetProperty c1 (some (gjs_get_import_global w.cx)) cls with ⟨c2, g⟩
    have hno : ∀ o, g ≠ some (JSValue.object o) := by
      intro o
      have h := habs o
      simp only [hg] at h
      exact h
    rw [valist_of_lookup_fail E w cls fmt args c1 c2 v g hp hs hg hno, performed_append]
    refine ⟨by simp [Op.isSetPending], by simp, ?_, fun h => by simp at h, fun _ => rfl, rfl⟩
    exact ⟨_, "Failed to throw exception '", "'", by simp, rfl⟩

/-- Witness of C7: a `TypeError` thrown in the engine whose global defines no
property; nothing is installed and the report is made. -/
theorem throw_missing_constructor_reports_witness :
    w0.cx.pending = none ∧
    (∀ o, (noCtorEngine.JS_GetProperty
        (noCtorEngine.gjs_string_from_utf8 (atEntry w0).cx
          (g_strdup_vprintf "bad %s" [PrintfArg.str "x"])).1
        (some (gjs_get_import_global w0.cx)) "TypeError").2 ≠ some (JSValue.object o)) ∧
    (performed w0 (gjs_throw_custom noCtorEngine w0 "TypeError" "bad %s"
        [PrintfArg.str "x"])).filter Op.isSetPending = [] ∧
    Op.JS_ReportError ("Failed to throw exception '"
        ++ g_strdup_vprintf "bad %s" [PrintfArg.str "x"] ++ "'")
      ∈ performed w0 (gjs_throw_custom noCtorEngine w0 "TypeError" "bad %s" [PrintfArg.str "x"]) :=
  have habs : ∀ o, (noCtorEngine.JS_GetProperty
        (noCtorEngine.gjs_string_from_utf8 (atEntry w0).cx
          (g_strdup_vprintf "bad %s" [PrintfArg.str "x"])).1
        (some (gjs_get_import_global w0.cx)) "TypeError").2 ≠ some (JSValue.object o) :=
    fun _ h => by simp [noCtorEngine, okEngine] at h
  have h := throw_missing_constructor_reports noCtorEngine w0 "TypeError" "bad %s"
    [PrintfArg.str "x"] rfl habs
  ⟨rfl, habs, h.1, h.2.1⟩

/-- C9 at its failing input: in the engine whose constructor throws (`JS_New`
returns null), `gjs_throw "boom"` on a fresh context calls
`JS_SetPendingException` with the null value and makes no low-level report. -/
theorem throw_null_construction_not_reported :
    performed w0 (gjs_throw newThrowsEngine w0 "boom" []) =
      [Op.enterCompartment 100, Op.JS_BeginRequest, Op.gjs_string_from_utf8 "boom",
        Op.JS_GetProperty (some 100) "Error", Op.JS_New 1 [JSValue.string "boom"],
        Op.JS_SetPendingException JSValue.null, Op.g_free "boom", Op.JS_EndRequest,
        Op.leaveCompartment] ∧
    (performed w0 (gjs_throw newThrowsEngine w0 "boom" [])).filter Op.isReport = [] ∧
    (gjs_throw newThrowsEngine w0 "boom" []).cx.pending = some JSValue.null := by
  decide

/-! ## The install is not re-validated -/

/-- C10, as stated, fails.  On a fresh context, when `JS_New` returns null and
leaves the exception object `5` pending, `gjs_throw` replaces it by the null
value; when `JS_New` returns the object `7` and leaves the object `5` pending,
`gjs_throw` replaces it by the object `7`.  In neither case is the exception
left by the engine call kept. -/
theorem throw_install_replaces_engine_exception :
    ((newThrowsEngine.JS_New (atEntry w0).cx 1 [JSValue.string "boom"]).1.pending
        = some (JSValue.object 5) ∧
      (gjs_throw newThrowsEngine w0 "boom" []).cx.pending = some JSValue.null ∧
      (gjs_throw newThrowsEngine w0 "boom" []).cx.pending ≠ some (JSValue.object 5)) ∧
    ((newLeavesPendingEngine.JS_New (atEntry w0).cx 1 [JSValue.string "boom"]).1.pending
        = some (JSValue.object 5) ∧
      (gjs_throw newLeavesPendingEngine w0 "boom" []).cx.pending = some (JSValue.object 7) ∧
      (gjs_throw newLeavesPendingEngine w0 "boom" []).cx.pending ≠ some (JSValue.object 5)) := by
  decide

/-- C10, amended: the pending slot is consulted on entry only.  With nothing
pending on entry, once the string conversion and the lookup succeed and the
constructor yields the object `o`, `gjs_throw_custom` calls
`JS_SetPendingException` with `o` and `o` is the pending exception after the
call, whatever the engine calls left in the slot (`c1`, `c2`, `c3` are
arbitrary). -/
theorem throw_installs_without_recheck (E : Engine) (w : World) (cls fmt : String)
    (args : List PrintfArg) (c1 c2 c3 : JSContext) (v : JSValue) (ctor o : JSObject)
    (hp : w.cx.pending = none)
    (hs : E.gjs_string_from_utf8 (atEntry w).cx (g_strdup_vprintf fmt args) = (c1, some v))
    (hg : E.JS_GetProperty c1 (some (gjs_get_import_global w.cx)) cls
            = (c2, some (JSValue.object ctor)))
    (hn : E.JS_New c2 ctor [v] = (c3, some o)) :
    (gjs_throw_custom E w cls fmt args).cx.pending = some (JSValue.object o) ∧
    (performed w (gjs_throw_custom E w cls fmt args)).filter Op.isSetPending
      = [Op.JS_SetPendingException (JSValue.object o)] := by
  unfold gjs_throw_custom
  rw [valist_of_lookup_ok E w cls fmt args c1 c2 c3 v ctor (some o) hp hs hg hn, performed_append]
  simp [afterExit, Op.isSetPending, ObjectOrNullValue]

/-- Witness of the amended C10: `JS_New` leaves the object `5` pending and
returns the object `7`; the object `7` is what is pending after the throw. -/
theorem throw_installs_without_recheck_witness :
    w0.cx.pending = none ∧
    newLeavesPendingEngine.gjs_string_from_utf8 (atEntry w0).cx (g_strdup_vprintf "boom" [])
      = ((atEntry w0).cx, some (JSValue.string "boom")) ∧
    newLeavesPendingEngine.JS_GetProperty (atEntry w0).cx (some (gjs_get_import_global w0.cx))
        "Error" = ((atEntry w0).cx, some (JSValue.object 1)) ∧
    newLeavesPendingEngine.JS_New (atEntry w0).cx 1 [JSValue.string "boom"]
      = ({ (atEntry w0).cx with pending := some (JSValue.object 5) }, some 7) ∧
    (gjs_throw_custom newLeavesPendingEngine w0 "Error" "boom" []).cx.pending
      = some (JSValue.object 7) :=
  ⟨rfl, rfl, rfl, rfl,
    (throw_installs_without_recheck newLeavesPendingEngine w0 "Error" "boom" []
      (atEntry w0).cx (atEntry w0).cx { (atEntry w0).cx with pending := some (JSValue.object 5) }
      (JSValue.string "boom") 1 7 rfl rfl rfl rfl).1⟩

end Gjs
